import Mathlib

/-!
Shallow embedding of the Prompt2Mail email sender (src/server.py).

The repository is a single-file MCP tool server.  Its core is three
functions, embedded below from the source:

* `enhance_email_with_ai` (server.py lines 37-93): builds a prompt, calls
  the Gemini text-generation endpoint, strips Markdown code fences from
  the reply, parses it as JSON, validates the four required keys, and on
  any failure returns a deterministic fallback dictionary.
* `send_email` (server.py lines 96-167): builds a MIME message (headers,
  body, attachment parts), computes the SMTP envelope recipient list, and
  performs one SMTP session; any exception becomes an error result.
* `send_professional_email` (server.py lines 171-330): parses the
  comma-separated inputs, validates them, loops over recipients calling
  the enhancer and the sender, and formats a text report.

External effects (the Gemini endpoint, `json.loads`, the filesystem, the
SMTP session, `os.path.isabs`) are modelled by an environment record
`Env`; observable actions (enhancement calls, SMTP send attempts) are
returned as an explicit `Event` trace so that claims about side effects
can be stated.  `main.py` contains a strictly simpler variant of the same
three functions (no attachments, no per-recipient names); the embedding
follows server.py, whose behaviour agrees with main.py on everything the
theorems below state about the shared parts.
-/

/-- Does the second character list begin with the first? -/
def startsWithChars : List Char → List Char → Bool
  | [], _ => true
  | _ :: _, [] => false
  | p :: ps, c :: cs => p == c && startsWithChars ps cs

/-- Remove a leading occurrence of the first list, when present. -/
def dropStartChars : List Char → List Char → Option (List Char)
  | [], l => some l
  | _ :: _, [] => none
  | p :: ps, c :: cs => if p == c then dropStartChars ps cs else none

/-- Splitting on every non-overlapping occurrence of a non-empty
separator, left to right — the semantics of Python's `s.split(sep)`.
The fuel argument (an upper bound on the list length) only makes the
recursion structural; with fuel ≥ length the exhausted branch is
unreachable for a non-empty separator. -/
def splitCharsAux (sep : List Char) : Nat → List Char → List Char →
    List (List Char)
  | _, [], acc => [acc.reverse]
  | 0, l, acc => [acc.reverse ++ l]
  | fuel + 1, c :: cs, acc =>
    match dropStartChars sep (c :: cs) with
    | some rest => acc.reverse :: splitCharsAux sep fuel rest []
    | none => splitCharsAux sep fuel cs (c :: acc)

/-- Python `s.split(sep)` for a non-empty separator. -/
def pySplit (s sep : String) : List String :=
  (splitCharsAux sep.data s.data.length s.data []).map String.mk

/-- Whitespace characters removed by Python's `str.strip()`. -/
def isSpaceChar (c : Char) : Bool :=
  c == ' ' || c == '\t' || c == '\n' || c == '\r' || c == '\x0b' || c == '\x0c'

/-- Python `s.strip()`: drop leading and trailing whitespace. -/
def pyStrip (s : String) : String :=
  String.mk (((s.data.dropWhile isSpaceChar).reverse.dropWhile
    isSpaceChar).reverse)

/-- Python truthiness of an optional string (`os.getenv` result):
`None` and `""` are falsy. -/
def strTruthy : Option String → Bool
  | none => false
  | some s => !s.isEmpty

/-- Python truthiness of an optional list: `None` and `[]` are falsy. -/
def listTruthy : Option (List String) → Bool
  | none => false
  | some l => !l.isEmpty

/-- The list carried by an optional list (`None` behaves as empty). -/
def optList : Option (List String) → List String
  | none => []
  | some l => l

/-- Python string interpolation of an optional string (`None` prints as
"None"), used for the `From` header (server.py line 110). -/
def pyStr : Option String → String
  | none => "None"
  | some s => s

/-- `os.path.basename` for the forward-slash separator used by the
repository's example paths (server.py lines 140, 163). -/
def basename (p : String) : String :=
  (pySplit p "/").getLastD ""

/-- `os.path.join a b` for a non-absolute second argument, with the
separator modelled as "/" (server.py lines 240, 401, 407). -/
def pjoin (a b : String) : String :=
  if a.isEmpty then b
  else if a.data.getLast? == some '/' then a ++ b
  else a ++ "/" ++ b

/-- `[x.strip() for x in s.split(",") if x.strip()]`
(server.py lines 222-225). -/
def parseCommaList (s : String) : List String :=
  ((pySplit s ",").map pyStrip).filter (fun x => !x.isEmpty)

/-- `[...] if s else None` wrapper used for the cc and bcc inputs
(server.py lines 224-225). -/
def parseOptCommaList (s : String) : Option (List String) :=
  if s.isEmpty then none else some (parseCommaList s)

/-- The environment of external effects the server interacts with.  Each
field models one library call or piece of ambient configuration. -/
structure Env where
  /-- `GEMINI_API_KEY` (server.py line 22). -/
  geminiApiKey : Option String
  /-- `genai.GenerativeModel(...).generate_content(prompt).text`
  (server.py lines 68-70); `none` models the call raising. -/
  generateContent : String → Option String
  /-- `json.loads` (server.py line 78), restricted to the flat
  string-to-string objects the enhancer consumes; `none` models a parse
  error or a non-conforming value (either way the `except` path runs). -/
  jsonParse : String → Option (List (String × String))
  /-- `SMTP_EMAIL` (server.py line 29). -/
  smtpEmail : Option String
  /-- `SMTP_PASSWORD` (server.py line 30). -/
  smtpPassword : Option String
  /-- `SENDER_NAME` (server.py line 31). -/
  senderName : String
  /-- `os.path.isfile` (server.py line 123). -/
  fileExists : String → Bool
  /-- Whether the SMTP session for a given primary recipient raises
  (connect, starttls, login or sendmail — server.py lines 145-157);
  `some e` is the exception's string. -/
  smtpSessionError : String → Option String
  /-- `os.path.isabs` (server.py line 239), platform-dependent. -/
  isAbs : String → Bool
  /-- `os.path.dirname(__file__)` (server.py lines 240, 400). -/
  scriptDir : String

/-- One observable action of the program. -/
inductive Event where
  /-- An invocation of the enhancer (server.py line 262). -/
  | enhanceCall (mainIdea tone recipientName : String)
  /-- One SMTP delivery attempt: the primary recipient, the envelope
  recipient list passed to `sendmail`, and the headers of the message
  built for it (server.py lines 109-157). -/
  | smtpSend (primary : String) (envelope : List String)
      (headers : List (String × String))
  deriving DecidableEq

/-- The dictionary returned by `send_email` (server.py lines 165-167):
the error dictionary carries no `attached`/`missing` keys, hence a sum. -/
inductive SendResult where
  | success (message : String) (attached missing : List String)
  | error (message : String)
  deriving DecidableEq

/-- `r["status"] == "success"` (server.py line 281). -/
def SendResult.isSuccess : SendResult → Bool
  | .success .. => true
  | .error _ => false

/-- `r["message"]` (server.py line 315), present in both dictionaries. -/
def SendResult.message : SendResult → String
  | .success m _ _ => m
  | .error m => m

/-- `r["attached"]` where present (server.py lines 288-289). -/
def SendResult.attachedOf : SendResult → List String
  | .success _ a _ => a
  | .error _ => []

/-- `r["missing"]` where present (server.py lines 290-291). -/
def SendResult.missingOf : SendResult → List String
  | .success _ _ m => m
  | .error _ => []

/- ## Content Enhancer (server.py lines 37-93) -/

/-- The personalised-greeting instruction (server.py lines 42-44). -/
def greetingInstruction (recipientName : String) : String :=
  if recipientName.isEmpty then ""
  else "\nRecipient name: " ++ recipientName ++
    "\nUse a personalized greeting with their name (e.g., \x27Dear " ++
    recipientName ++ ",\x27 or \x27Hi " ++ recipientName ++ ",\x27)"

/-- The prompt f-string (server.py lines 46-62). -/
def buildPrompt (mainIdea tone recipientName : String) : String :=
  "You are a professional email writing assistant. Given a short main idea, create a polished, concise, and natural-sounding email.\n\nMain idea: "
  ++ mainIdea ++ "\nTone: " ++ tone ++ greetingInstruction recipientName ++
  "\n\nGenerate a complete professional email with:\n1. A clear, specific subject line (no \"Subject:\" prefix)\n2. Appropriate greeting\n3. Well-structured body (2-4 sentences, clear and concise)\n4. Professional closing\n\nReturn ONLY a valid JSON object with these exact keys: \"subject\", \"greeting\", \"body\", \"closing\"\n\nExample format:\n\x7b\"subject\": \"Project Update - Q4 Results\", \"greeting\": \"Hello,\", \"body\": \"I wanted to share some exciting news about our Q4 performance. Our team exceeded targets by 15% and secured three new major clients. The detailed report is attached for your review.\", \"closing\": \"Best regards\"\x7d\n\nNow generate the email:"

/-- Code-fence extraction (server.py lines 73-76): `"```json" in text`
is `text.split("```json")` having more than one piece, and the slice
taken is between the first fence marker and the next "```". -/
def stripCodeFences (text : String) : String :=
  if (pySplit text "```json").length > 1 then
    pyStrip ((pySplit ((pySplit text "```json").getD 1 "") "```").getD 0 "")
  else if (pySplit text "```").length > 1 then
    pyStrip ((pySplit ((pySplit text "```").getD 1 "") "```").getD 0 "")
  else text

/-- `required_keys` (server.py line 81). -/
def requiredKeys : List String := ["subject", "greeting", "body", "closing"]

/-- The fallback dictionary of the `except` branch (server.py lines
88-93); `main_idea[:50]` is the first 50 characters. -/
def fallbackEmail (mainIdea : String) : List (String × String) :=
  [("subject", "Update: " ++ mainIdea.take 50),
   ("greeting", "Hello,"),
   ("body", "I wanted to reach out regarding: " ++ mainIdea ++
     "\n\nPlease let me know if you have any questions."),
   ("closing", "Best regards")]

/-- The `try` block of the enhancer (server.py lines 64-85): `none`
means some step raised and the `except` branch runs.  The missing-key
check is `all(key in result for key in required_keys)` (line 82). -/
def tryEnhance (env : Env) (mainIdea tone recipientName : String) :
    Option (List (String × String)) :=
  if !strTruthy env.geminiApiKey then none
  else
    match env.generateContent (buildPrompt mainIdea tone recipientName) with
    | none => none
    | some raw =>
      match env.jsonParse (stripCodeFences (pyStrip raw)) with
      | none => none
      | some kvs =>
        if requiredKeys.all (fun k => (kvs.lookup k).isSome) then some kvs
        else none

/-- `enhance_email_with_ai` (server.py lines 37-93): the `try` result,
or the fallback dictionary on any failure. -/
def enhance_email_with_ai (env : Env) (mainIdea tone recipientName : String) :
    List (String × String) :=
  (tryEnhance env mainIdea tone recipientName).getD (fallbackEmail mainIdea)

/- ## Message Builder and Delivery Channel (server.py lines 96-167) -/

/-- One attachment part of the MIME message; the disposition filename is
the path's base name (server.py lines 139-140).  MIME-type guessing
(lines 128-132) only tags the part and is not modelled. -/
structure AttachPart where
  path : String
  filename : String
  deriving DecidableEq

/-- The attachment loop (server.py lines 121-142): paths that are not
files are collected as missing and skipped, the rest become parts. -/
def computeAttachments (env : Env) : List String → List AttachPart × List String
  | [] => ([], [])
  | p :: rest =>
    let r := computeAttachments env rest
    if env.fileExists p then (⟨p, basename p⟩ :: r.1, r.2)
    else (r.1, p :: r.2)

/-- The message headers (server.py lines 109-115): From, To, Subject,
and Cc only when the cc list is truthy.  No Bcc header is ever set. -/
def buildHeaders (env : Env) (toEmail subject : String)
    (cc : Option (List String)) : List (String × String) :=
  [("From", env.senderName ++ " <" ++ pyStr env.smtpEmail ++ ">"),
   ("To", toEmail),
   ("Subject", subject)]
  ++ (if listTruthy cc then [("Cc", String.intercalate ", " (optList cc))] else [])

/-- The envelope recipient list passed to `sendmail` (server.py lines
150-154): primary, then cc if truthy, then bcc if truthy. -/
def envelopeRecipients (toEmail : String) (cc bcc : Option (List String)) :
    List String :=
  [toEmail] ++ (if listTruthy cc then optList cc else [])
    ++ (if listTruthy bcc then optList bcc else [])

/-- `send_email` (server.py lines 96-167).  The single `Event.smtpSend`
records the SMTP session attempt with the envelope and headers the
message was built with; `env.smtpSessionError` decides whether the
session raises, which the outer `try` converts into an error result. -/
def send_email (env : Env) (toEmail subject body : String)
    (cc bcc attachments : Option (List String)) : SendResult × List Event :=
  let am := computeAttachments env (optList attachments)
  let headers := buildHeaders env toEmail subject cc
  let envl := envelopeRecipients toEmail cc bcc
  let ev := Event.smtpSend toEmail envl headers
  match env.smtpSessionError toEmail with
  | some err =>
    (SendResult.error ("Failed to send to " ++ toEmail ++ ": " ++ err), [ev])
  | none =>
    let attachedNames := am.1.map AttachPart.filename
    let message := "Email sent to " ++ toEmail
      ++ (if !attachedNames.isEmpty then
            " (Attached: " ++ String.intercalate ", " attachedNames ++ ")"
          else "")
      ++ (if !am.2.isEmpty then
            " (Missing files: " ++
              String.intercalate ", " (am.2.map basename) ++ ")"
          else "")
    (SendResult.success message attachedNames am.2, [ev])

/- ## Batch Orchestrator (server.py lines 171-330) -/

/-- Iterations of the `while len(name_list) < len(recipient_list)`
padding loop (server.py lines 228-229): each pass appends one "". -/
def padNamesAux : Nat → List String → List String
  | 0, names => names
  | k + 1, names => padNamesAux k (names ++ [""])

/-- The padding loop itself: it appends "" exactly until the name list
is no shorter than the recipient list, i.e. `n - names.length` times
(server.py lines 228-229). -/
def padNames (names : List String) (n : Nat) : List String :=
  padNamesAux (n - names.length) names

/-- Relative-path resolution of one attachment path (server.py lines
239-240): a non-absolute path is joined onto the script's directory. -/
def resolveAttachmentPath (env : Env) (path : String) : String :=
  if env.isAbs path then path else pjoin env.scriptDir path

/-- The attachment-argument parsing loop plus the final
`attachment_list if attachment_list else None` (server.py 232-243). -/
def parseAttachmentList (env : Env) (attachments : String) : Option (List String) :=
  let lst :=
    if attachments.isEmpty then []
    else (((pySplit attachments ",").map pyStrip).filter
        (fun p => !p.isEmpty)).map (resolveAttachmentPath env)
  if lst.isEmpty then none else some lst

/-- The staging directory `save_temp_file` writes to (server.py lines
400-401): `temp_attachments` under the script's directory. -/
def stagingDir (env : Env) : String :=
  pjoin env.scriptDir "temp_attachments"

/-- The path at which `save_temp_file filename ...` stores the uploaded
file (server.py line 407). -/
def save_temp_file_path (env : Env) (filename : String) : String :=
  pjoin (stagingDir env) filename

/-- `not SMTP_EMAIL or not SMTP_PASSWORD` negated (server.py line 252). -/
def credsConfigured (env : Env) : Bool :=
  strTruthy env.smtpEmail && strTruthy env.smtpPassword

/-- One entry of `email_contents` (server.py line 274). -/
structure Content where
  recipient : String
  subject : String
  body : String
  deriving DecidableEq

/-- One iteration of the per-recipient loop (server.py lines 259-274):
enhance with this recipient's name, read the four fields, assemble the
full body, send.  The `except` branch of the loop (lines 276-278) is
unreachable here because the embedded enhancer is total and always
returns a dictionary holding the four keys. -/
def processOne (env : Env) (mainIdea tone : String)
    (cc bcc attachments : Option (List String)) (p : String × String) :
    (SendResult × Content) × List Event :=
  let enhanced := enhance_email_with_ai env mainIdea tone p.2
  let subject := (enhanced.lookup "subject").getD ""
  let greeting := (enhanced.lookup "greeting").getD ""
  let bodyText := (enhanced.lookup "body").getD ""
  let closing := (enhanced.lookup "closing").getD ""
  let fullBody := greeting ++ "\n\n" ++ bodyText ++ "\n\n" ++ closing ++
    ",\n" ++ env.senderName
  let se := send_email env p.1 subject fullBody cc bcc attachments
  ((se.1, ⟨p.1, subject, fullBody⟩),
    Event.enhanceCall mainIdea tone p.2 :: se.2)

/-- The whole per-recipient loop (server.py lines 256-278) over the
zipped recipient/name pairs, accumulating results and events. -/
def processRecipients (env : Env) (mainIdea tone : String)
    (cc bcc attachments : Option (List String)) :
    List (String × String) → List (SendResult × Content) × List Event
  | [] => ([], [])
  | p :: rest =>
    let head := processOne env mainIdea tone cc bcc attachments p
    let tail := processRecipients env mainIdea tone cc bcc attachments rest
    (head.1 :: tail.1, head.2 ++ tail.2)

/-- `success_count` (server.py line 281). -/
def successCount (results : List SendResult) : Nat :=
  (results.filter SendResult.isSuccess).length

/-- `failed_count = len(results) - success_count` (server.py line 282). -/
def failedCount (results : List SendResult) : Nat :=
  results.length - successCount results

/-- One per-recipient block of the Delivery Status section: the source
appends the status line twice per recipient (server.py lines 312-316),
first with the optional name annotation and no newline, then again
bare followed by a newline. -/
def statusLine (i : Nat) (nameList : List String) (recipient : String)
    (result : SendResult) : String :=
  let icon := if result.isSuccess then "✓" else "✗"
  let nameInfo :=
    if decide (i < nameList.length) && !(nameList.getD i "").isEmpty then
      " (" ++ nameList.getD i "" ++ ")"
    else ""
  "\n" ++ icon ++ " " ++ recipient ++ nameInfo ++ ": " ++ result.message
    ++ icon ++ " " ++ recipient ++ ": " ++ result.message ++ "\n"

/-- `for i, (recipient, result) in enumerate(zip(recipient_list,
results))` (server.py line 312). -/
def statusBlock (nameList : List String) :
    Nat → List String → List SendResult → String
  | _, [], _ => ""
  | _, _ :: _, [] => ""
  | i, r :: rs, res :: ress =>
    statusLine i nameList r res ++ statusBlock nameList (i + 1) rs ress

/-- The first line of the report f-string (server.py line 300). -/
def reportHeader : String := "✓ Email Sent Successfully"

/-- The report assembly after the header (server.py lines 284-328).
`list(set(...))` iterates in an unspecified order; its deduplication is
modelled as first-occurrence order (`List.eraseDups`). -/
def reportRest (recipientList nameList : List String)
    (ccL bccL : Option (List String))
    (results : List SendResult) (contents : List Content) : String :=
  let allAttached := (results.flatMap SendResult.attachedOf).eraseDups
  let allMissing := (results.flatMap SendResult.missingOf).eraseDups
  let first := contents.headD ⟨"", "N/A", "N/A"⟩
  "\n\nSubject: " ++ first.subject
  ++ "\nRecipients: " ++ toString recipientList.length ++ " ("
  ++ toString (successCount results) ++ " sent, "
  ++ toString (failedCount results) ++ " failed)"
  ++ "\n\n--- Sample Email Content (first recipient) ---\n" ++ first.body
  ++ "\n--------------------\n\nDelivery Status:\n"
  ++ statusBlock nameList 0 recipientList results
  ++ (if listTruthy ccL then "\nCC: " ++ String.intercalate ", " (optList ccL)
      else "")
  ++ (if listTruthy bccL then "\nBCC: " ++ String.intercalate ", " (optList bccL)
      else "")
  ++ (if !allAttached.isEmpty then
        "\n\n✓ Attachments Sent: " ++ String.intercalate ", " allAttached
      else "")
  ++ (if !allMissing.isEmpty then
        "\n\n✗ Missing Files (not attached): "
        ++ String.intercalate ", " allMissing
        ++ "\n   Please check file paths. Use \x27list_attachments\x27 tool to browse available files."
      else "")

/-- The full report string (server.py lines 300-330). -/
def formatReport (recipientList nameList : List String)
    (ccL bccL : Option (List String))
    (results : List SendResult) (contents : List Content) : String :=
  reportHeader ++ reportRest recipientList nameList ccL bccL results contents

/-- `send_professional_email` (server.py lines 171-330): parse, pad,
resolve attachments, validate, loop, report.  The result pairs the
returned string with the trace of observable actions. -/
def send_professional_email (env : Env)
    (mainIdea recipients tone cc bcc attachments recipientNames : String) :
    String × List Event :=
  let recipientList := parseCommaList recipients
  let nameList := padNames (parseCommaList recipientNames) recipientList.length
  let ccList := parseOptCommaList cc
  let bccList := parseOptCommaList bcc
  let attachmentList := parseAttachmentList env attachments
  if recipientList.isEmpty then
    ("Error: No valid recipients provided", [])
  else if mainIdea.isEmpty then
    ("Error: No main idea provided", [])
  else if !credsConfigured env then
    ("Error: SMTP credentials not configured. Please set SMTP_EMAIL and SMTP_PASSWORD in .env file", [])
  else
    let proc := processRecipients env mainIdea tone ccList bccList
      attachmentList (recipientList.zip nameList)
    let results := proc.1.map Prod.fst
    let contents := proc.1.map Prod.snd
    (formatReport recipientList nameList ccList bccList results contents,
      proc.2)

/- ## Helper lemmas -/

theorem strAppendAssoc (a b c : String) : a ++ b ++ c = a ++ (b ++ c) := by
  apply String.ext
  simp [String.data_append, List.append_assoc]

theorem strAppendEmpty (a : String) : a ++ "" = a := by
  apply String.ext
  simp [String.data_append]

theorem padNamesAux_eq (k : Nat) :
    ∀ names, padNamesAux k names = names ++ List.replicate k "" := by
  induction k with
  | zero => intro names; simp [padNamesAux]
  | succ k ih =>
    intro names
    simp [padNamesAux, ih, List.replicate_succ, List.append_assoc]

theorem padNames_eq (names : List String) (n : Nat) :
    padNames names n = names ++ List.replicate (n - names.length) "" := by
  simp [padNames, padNamesAux_eq]

theorem padNames_length (names : List String) (n : Nat) :
    n ≤ (padNames names n).length := by
  simp [padNames_eq]
  omega

/-- The primary recipient of an SMTP send event. -/
def smtpPrimary? : Event → Option String
  | .smtpSend p _ _ => some p
  | _ => none

theorem send_email_events (env : Env) (toEmail subject body : String)
    (cc bcc atts : Option (List String)) :
    (send_email env toEmail subject body cc bcc atts).2 =
      [Event.smtpSend toEmail (envelopeRecipients toEmail cc bcc)
        (buildHeaders env toEmail subject cc)] := by
  cases h : env.smtpSessionError toEmail <;> simp [send_email, h]

theorem send_email_missing (env : Env) (toEmail subject body : String)
    (cc bcc atts : Option (List String))
    (h : (send_email env toEmail subject body cc bcc atts).1.isSuccess = true) :
    (send_email env toEmail subject body cc bcc atts).1.missingOf
      = (computeAttachments env (optList atts)).2 := by
  cases hs : env.smtpSessionError toEmail <;>
    simp [send_email, hs, SendResult.missingOf, SendResult.isSuccess] at h ⊢

theorem processRecipients_events (env : Env) (mainIdea tone : String)
    (cc bcc atts : Option (List String)) (pairs : List (String × String)) :
    (processRecipients env mainIdea tone cc bcc atts pairs).2 =
      pairs.flatMap
        (fun p => (processOne env mainIdea tone cc bcc atts p).2) := by
  induction pairs with
  | nil => rfl
  | cons p rest ih => simp [processRecipients, ih]

theorem processOne_events (env : Env) (mainIdea tone : String)
    (cc bcc atts : Option (List String)) (p : String × String) :
    (processOne env mainIdea tone cc bcc atts p).2 =
      [Event.enhanceCall mainIdea tone p.2,
       Event.smtpSend p.1 (envelopeRecipients p.1 cc bcc)
         (buildHeaders env p.1
           (((enhance_email_with_ai env mainIdea tone p.2).lookup
             "subject").getD "") cc)] := by
  simp [processOne, send_email_events]

theorem processRecipients_primaries (env : Env) (mainIdea tone : String)
    (cc bcc atts : Option (List String)) (pairs : List (String × String)) :
    ((processRecipients env mainIdea tone cc bcc atts pairs).2).filterMap
      smtpPrimary? = pairs.map Prod.fst := by
  induction pairs with
  | nil => rfl
  | cons p rest ih =>
    simp [processRecipients, List.filterMap_append, ih, processOne_events,
      smtpPrimary?]

theorem processRecipients_length (env : Env) (mainIdea tone : String)
    (cc bcc atts : Option (List String)) (pairs : List (String × String)) :
    (processRecipients env mainIdea tone cc bcc atts pairs).1.length
      = pairs.length := by
  induction pairs with
  | nil => rfl
  | cons p rest ih => simp [processRecipients, ih]

theorem computeAttachments_missing_mem (env : Env) (l : List String)
    (p : String) (hp : p ∈ l) (hex : env.fileExists p = false) :
    p ∈ (computeAttachments env l).2 := by
  induction l with
  | nil => simp at hp
  | cons q rest ih =>
    rcases List.mem_cons.mp hp with rfl | hmem
    · simp [computeAttachments, hex]
    · by_cases hq : env.fileExists q <;>
        simp [computeAttachments, hq, ih hmem]

theorem computeAttachments_parts_exist (env : Env) (l : List String)
    (part : AttachPart) (hp : part ∈ (computeAttachments env l).1) :
    env.fileExists part.path = true := by
  induction l with
  | nil => simp [computeAttachments] at hp
  | cons q rest ih =>
    by_cases hq : env.fileExists q
    · rcases List.mem_cons.mp (by simpa [computeAttachments, hq] using hp)
        with rfl | hmem
      · exact hq
      · exact ih hmem
    · exact ih (by simpa [computeAttachments, hq] using hp)

/-- "r occurs as a substring of s", witnessed by a decomposition. -/
def MentionsStr (s r : String) : Prop := ∃ pre post, s = pre ++ r ++ post

theorem mentionsAppendLeft (t : String) {s r : String}
    (h : MentionsStr s r) : MentionsStr (t ++ s) r := by
  obtain ⟨p, q, rfl⟩ := h
  exact ⟨t ++ p, q, by simp only [strAppendAssoc]⟩

theorem mentionsAppendRight (t : String) {s r : String}
    (h : MentionsStr s r) : MentionsStr (s ++ t) r := by
  obtain ⟨p, q, rfl⟩ := h
  exact ⟨p, q ++ t, by simp only [strAppendAssoc]⟩

theorem statusLine_mentions (i : Nat) (nl : List String) (r : String)
    (res : SendResult) : MentionsStr (statusLine i nl r res) r := by
  refine ⟨"\n" ++ (if res.isSuccess then "✓" else "✗") ++ " ",
    (if decide (i < nl.length) && !(nl.getD i "").isEmpty then
       " (" ++ nl.getD i "" ++ ")"
     else "") ++ ": " ++ res.message
      ++ (if res.isSuccess then "✓" else "✗") ++ " " ++ r ++ ": "
      ++ res.message ++ "\n", ?_⟩
  simp only [statusLine, strAppendAssoc]

theorem statusBlock_mentions (nl : List String) (rl : List String) :
    ∀ (i : Nat) (res : List SendResult) (r : String), r ∈ rl →
      res.length = rl.length → MentionsStr (statusBlock nl i rl res) r := by
  induction rl with
  | nil => intro i res r hr; simp at hr
  | cons a rest ih =>
    intro i res r hr hlen
    cases res with
    | nil => simp at hlen
    | cons b resRest =>
      rcases List.mem_cons.mp hr with rfl | hmem
      · exact mentionsAppendRight _ (statusLine_mentions i nl r b)
      · exact mentionsAppendLeft _
          (ih (i + 1) resRest r hmem (by simpa using hlen))

theorem formatReport_mentions (rl nl : List String)
    (ccL bccL : Option (List String)) (results : List SendResult)
    (contents : List Content) (r : String) (hr : r ∈ rl)
    (hlen : results.length = rl.length) :
    MentionsStr (formatReport rl nl ccL bccL results contents) r := by
  simp only [formatReport, reportRest]
  apply mentionsAppendLeft
  apply mentionsAppendRight
  apply mentionsAppendRight
  apply mentionsAppendRight
  apply mentionsAppendRight
  apply mentionsAppendLeft
  exact statusBlock_mentions nl rl 0 results r hr hlen

theorem spe_unfold (env : Env)
    (mainIdea recipients tone cc bcc attachments recipientNames : String)
    (hr : parseCommaList recipients ≠ []) (hi : mainIdea ≠ "")
    (hc : credsConfigured env = true) :
    send_professional_email env mainIdea recipients tone cc bcc attachments
        recipientNames =
      (formatReport (parseCommaList recipients)
        (padNames (parseCommaList recipientNames)
          (parseCommaList recipients).length)
        (parseOptCommaList cc) (parseOptCommaList bcc)
        ((processRecipients env mainIdea tone (parseOptCommaList cc)
            (parseOptCommaList bcc) (parseAttachmentList env attachments)
            ((parseCommaList recipients).zip
              (padNames (parseCommaList recipientNames)
                (parseCommaList recipients).length))).1.map Prod.fst)
        ((processRecipients env mainIdea tone (parseOptCommaList cc)
            (parseOptCommaList bcc) (parseAttachmentList env attachments)
            ((parseCommaList recipients).zip
              (padNames (parseCommaList recipientNames)
                (parseCommaList recipients).length))).1.map Prod.snd),
       (processRecipients env mainIdea tone (parseOptCommaList cc)
          (parseOptCommaList bcc) (parseAttachmentList env attachments)
          ((parseCommaList recipients).zip
            (padNames (parseCommaList recipientNames)
              (parseCommaList recipients).length))).2) := by
  have h1 : (parseCommaList recipients).isEmpty = false := by
    simpa [List.isEmpty_iff] using hr
  have h2 : mainIdea.isEmpty = false := by
    rw [Bool.eq_false_iff]
    intro he
    exact hi ((String.isEmpty_iff mainIdea).mp he)
  simp [send_professional_email, h1, h2, hc]

theorem truthyOptList (o : Option (List String)) :
    (if listTruthy o then optList o else []) = optList o := by
  cases o with
  | none => rfl
  | some l => cases l <;> simp [listTruthy, optList]

/-- The `results` list of one orchestrator run after validation passes:
the DeliveryOutcome of each recipient, in input order (server.py lines
256-273, the value bound to `results` before the report is formatted). -/
def orchResults (env : Env)
    (mainIdea recipients tone cc bcc attachments recipientNames : String) :
    List SendResult :=
  (processRecipients env mainIdea tone (parseOptCommaList cc)
    (parseOptCommaList bcc) (parseAttachmentList env attachments)
    ((parseCommaList recipients).zip
      (padNames (parseCommaList recipientNames)
        (parseCommaList recipients).length))).1.map Prod.fst

/-- The `email_contents` list of the same run (server.py line 274). -/
def orchContents (env : Env)
    (mainIdea recipients tone cc bcc attachments recipientNames : String) :
    List Content :=
  (processRecipients env mainIdea tone (parseOptCommaList cc)
    (parseOptCommaList bcc) (parseAttachmentList env attachments)
    ((parseCommaList recipients).zip
      (padNames (parseCommaList recipientNames)
        (parseCommaList recipients).length))).1.map Prod.snd

theorem send_email_isSuccess (env : Env) (toEmail subject body : String)
    (cc bcc atts : Option (List String)) :
    (send_email env toEmail subject body cc bcc atts).1.isSuccess
      = (env.smtpSessionError toEmail).isNone := by
  cases h : env.smtpSessionError toEmail <;>
    simp [send_email, h, SendResult.isSuccess]

/-- A delivery outcome is a success exactly when that recipient's SMTP
session does not raise: the success flags of the result list are the
per-recipient session outcomes, in order. -/
theorem processRecipients_success_flags (env : Env) (mainIdea tone : String)
    (cc bcc atts : Option (List String)) (pairs : List (String × String)) :
    ((processRecipients env mainIdea tone cc bcc atts pairs).1.map
        Prod.fst).map SendResult.isSuccess
      = pairs.map (fun p => (env.smtpSessionError p.1).isNone) := by
  induction pairs with
  | nil => rfl
  | cons p rest ih =>
    simp [processRecipients, processOne, ih, send_email_isSuccess]

theorem length_filter_eq_count_true {α : Type} (p : α → Bool) (l : List α) :
    (l.filter p).length = (l.map p).count true := by
  induction l with
  | nil => rfl
  | cons a t ih =>
    cases h : p a <;> simp [List.filter_cons, h, ih, List.count_cons]

theorem count_true_add_count_false (l : List Bool) :
    l.count true + l.count false = l.length := by
  induction l with
  | nil => rfl
  | cons b t ih => cases b <;> simp [List.count_cons, ih] <;> omega

/- ## Concrete environments used by witnesses -/

/-- A concrete environment: SMTP credentials configured, the generative
endpoint unconfigured, the SMTP session succeeding for every recipient
except b@x.com, no files on disk, POSIX-style absolute paths. -/
def envW : Env where
  geminiApiKey := none
  generateContent := fun _ => none
  jsonParse := fun _ => none
  smtpEmail := some "me@x.com"
  smtpPassword := some "pw"
  senderName := "S"
  fileExists := fun _ => false
  smtpSessionError := fun r => if r == "b@x.com" then some "boom" else none
  isAbs := fun p => p.data.headD ' ' == '/'
  scriptDir := "/ws"

/-- Like `envW` but with a configured generative endpoint that answers
with a code-fenced JSON body, and a parse function recognising it. -/
def envR : Env :=
  { envW with
    geminiApiKey := some "k"
    generateContent := fun _ => some "```json\nX\n```"
    jsonParse := fun s =>
      if s == "X" then
        some [("subject", "S1"), ("greeting", "G1"), ("body", "B1"),
          ("closing", "C1")]
      else none }

/-- Like `envW` but with every SMTP session failing. -/
def envF : Env :=
  { envW with smtpSessionError := fun _ => some "relay down" }

/- ## Claims -/

/-- C1: for every call to send_email, the SMTP envelope recipient list
is the primary recipient followed by all cc then all bcc addresses (so
the Bcc addresses are always part of the envelope), while the built
message's headers never contain a Bcc header, and contain a Cc header
listing the cc addresses exactly when the cc list is non-empty. -/
theorem c1_bcc_envelope_never_headers (env : Env)
    (toEmail subject body : String) (cc bcc atts : Option (List String)) :
    (send_email env toEmail subject body cc bcc atts).2 =
      [Event.smtpSend toEmail (envelopeRecipients toEmail cc bcc)
        (buildHeaders env toEmail subject cc)]
    ∧ envelopeRecipients toEmail cc bcc
        = [toEmail] ++ optList cc ++ optList bcc
    ∧ (∀ hd ∈ buildHeaders env toEmail subject cc, hd.1 ≠ "Bcc")
    ∧ (optList cc ≠ [] →
        ("Cc", String.intercalate ", " (optList cc)) ∈
          buildHeaders env toEmail subject cc) := by
  refine ⟨send_email_events env toEmail subject body cc bcc atts, ?_, ?_, ?_⟩
  · simp [envelopeRecipients, truthyOptList]
  · intro hd hmem
    by_cases ht : listTruthy cc <;>
      simp [buildHeaders, ht] at hmem <;>
      rcases hmem with rfl | rfl | rfl | rfl <;> simp
  · intro hne
    cases cc with
    | none => simp [optList] at hne
    | some l =>
      cases l with
      | nil => simp [optList] at hne
      | cons a t =>
        simp [buildHeaders, listTruthy, optList]

/-- C1 witness: a concrete send with one cc and two bcc addresses. -/
theorem c1_witness :
    optList (some ["c@x.com"]) ≠ []
    ∧ envelopeRecipients "to@x.com" (some ["c@x.com"])
        (some ["b1@x.com", "b2@x.com"])
        = ["to@x.com", "c@x.com", "b1@x.com", "b2@x.com"]
    ∧ ("Cc", String.intercalate ", " (optList (some ["c@x.com"]))) ∈
        buildHeaders envW "to@x.com" "Subj" (some ["c@x.com"]) := by
  have h := c1_bcc_envelope_never_headers envW "to@x.com" "Subj" "Body"
    (some ["c@x.com"]) (some ["b1@x.com", "b2@x.com"]) none
  exact ⟨by decide, h.2.1.trans (by decide), h.2.2.2 (by decide)⟩

/-- C2: whenever the remote generative call fails for any of the listed
reasons (key unconfigured, the endpoint call raising, an unparseable
response, or missing required keys), enhance_email_with_ai returns the
deterministic fallback dictionary, whose subject is "Update: " followed
by the first 50 characters of the idea and whose four fields are all
non-empty; being a total function, it never raises. -/
theorem c2_enhance_fallback (env : Env) (mainIdea tone recipientName : String)
    (h : strTruthy env.geminiApiKey = false
      ∨ env.generateContent (buildPrompt mainIdea tone recipientName) = none
      ∨ (∀ raw,
          env.generateContent (buildPrompt mainIdea tone recipientName)
            = some raw →
          env.jsonParse (stripCodeFences (pyStrip raw)) = none)
      ∨ (∀ raw kvs,
          env.generateContent (buildPrompt mainIdea tone recipientName)
            = some raw →
          env.jsonParse (stripCodeFences (pyStrip raw)) = some kvs →
          requiredKeys.all (fun k => (kvs.lookup k).isSome) = false)) :
    enhance_email_with_ai env mainIdea tone recipientName
      = fallbackEmail mainIdea
    ∧ (fallbackEmail mainIdea).lookup "subject"
        = some ("Update: " ++ mainIdea.take 50)
    ∧ (∀ k ∈ requiredKeys,
        ∃ v, (fallbackEmail mainIdea).lookup k = some v ∧ v ≠ "") := by
  have hnone : tryEnhance env mainIdea tone recipientName = none := by
    unfold tryEnhance
    rcases h with h | h | h | h
    · simp [h]
    · by_cases hk : strTruthy env.geminiApiKey <;> simp [hk, h]
    · by_cases hk : strTruthy env.geminiApiKey <;> simp [hk]
      cases hg : env.generateContent (buildPrompt mainIdea tone recipientName)
        with
      | none => simp
      | some raw => simp [h raw hg]
    · by_cases hk : strTruthy env.geminiApiKey <;> simp [hk]
      cases hg : env.generateContent (buildPrompt mainIdea tone recipientName)
        with
      | none => simp
      | some raw =>
        simp only []
        cases hp : env.jsonParse (stripCodeFences (pyStrip raw)) with
        | none => simp
        | some kvs => simp [h raw kvs hg hp]
  have hlen : ∀ a b : String, a.length ≠ 0 → a ++ b ≠ "" := by
    intro a b ha heq
    have := congrArg String.length heq
    rw [String.length_append] at this
    simp at this
    omega
  refine ⟨by simp [enhance_email_with_ai, hnone], rfl, ?_⟩
  intro k hk
  fin_cases hk
  · exact ⟨"Update: " ++ mainIdea.take 50, rfl,
      hlen "Update: " _ (by decide)⟩
  · exact ⟨"Hello,", rfl, by decide⟩
  · exact ⟨"I wanted to reach out regarding: " ++ mainIdea ++
      "\n\nPlease let me know if you have any questions.", rfl,
      hlen "I wanted to reach out regarding: " _ (by decide)⟩
  · exact ⟨"Best regards", rfl, by decide⟩

/-- C2 witness: with the generative key unconfigured, the enhancer
returns the fallback for a concrete idea. -/
theorem c2_witness :
    strTruthy envW.geminiApiKey = false
    ∧ enhance_email_with_ai envW "Launch update" "professional" ""
        = fallbackEmail "Launch update" := by
  exact ⟨by decide,
    (c2_enhance_fallback envW "Launch update" "professional" ""
      (Or.inl (by decide))).1⟩

/-- C3: if the parsed recipient list is empty, the idea is empty, or the
SMTP credentials are not configured, send_professional_email returns one
of the three descriptive single-line error strings and its event trace
is empty: no enhancement call and no send attempt happens. -/
theorem c3_validation_short_circuits (env : Env)
    (mainIdea recipients tone cc bcc attachments recipientNames : String)
    (h : parseCommaList recipients = [] ∨ mainIdea = ""
      ∨ credsConfigured env = false) :
    (send_professional_email env mainIdea recipients tone cc bcc attachments
        recipientNames).2 = []
    ∧ ((send_professional_email env mainIdea recipients tone cc bcc
          attachments recipientNames).1
          = "Error: No valid recipients provided"
        ∨ (send_professional_email env mainIdea recipients tone cc bcc
            attachments recipientNames).1
          = "Error: No main idea provided"
        ∨ (send_professional_email env mainIdea recipients tone cc bcc
            attachments recipientNames).1
          = "Error: SMTP credentials not configured. Please set SMTP_EMAIL and SMTP_PASSWORD in .env file")
    ∧ ((send_professional_email env mainIdea recipients tone cc bcc
          attachments recipientNames).1.data.all
          (fun ch => !(ch == '\n'))) = true := by
  by_cases h1 : (parseCommaList recipients).isEmpty
  · refine ⟨?_, Or.inl ?_, ?_⟩ <;>
      simp only [send_professional_email, h1, if_true, Bool.true_eq] <;>
      decide
  · by_cases h2 : mainIdea.isEmpty
    · refine ⟨?_, Or.inr (Or.inl ?_), ?_⟩ <;>
        simp only [send_professional_email, h1, h2, if_true, if_false,
          Bool.false_eq_true, Bool.true_eq] <;>
        decide
    · have hc : credsConfigured env = false := by
        rcases h with h | h | h
        · exact absurd (by simp [List.isEmpty_iff, h]) h1
        · exact absurd (by simp [h, String.isEmpty_iff]) h2
        · exact h
      refine ⟨?_, Or.inr (Or.inr ?_), ?_⟩ <;>
        simp only [send_professional_email, h1, h2, hc, if_true, if_false,
          Bool.false_eq_true, Bool.true_eq, Bool.not_false] <;>
        decide

/-- C3 witness: an empty recipients string short-circuits with the
no-recipients error and an empty event trace. -/
theorem c3_witness :
    parseCommaList "" = []
    ∧ (send_professional_email envW "hello" "" "professional" "" "" "" "").2
        = [] := by
  exact ⟨by decide,
    (c3_validation_short_circuits envW "hello" "" "professional" "" "" "" ""
      (Or.inl (by decide))).1⟩

/-- C4: once validation passes, every recipient gets exactly one SMTP
send attempt, in input order (the trace's send-event primaries equal the
parsed recipient list); the returned report is the formatted report over
the actual result list, which has one entry per recipient; the displayed
success count equals the number of recipients whose SMTP session
succeeded and the displayed failed count the number whose session raised
(so a failure for one recipient never suppresses the processing of the
others), the two counts sum to the number of recipients, and every
recipient occurs in the report text. -/
theorem c4_failure_does_not_stop_batch (env : Env)
    (mainIdea recipients tone cc bcc attachments recipientNames : String)
    (hr : parseCommaList recipients ≠ []) (hi : mainIdea ≠ "")
    (hc : credsConfigured env = true) :
    ((send_professional_email env mainIdea recipients tone cc bcc attachments
        recipientNames).2).filterMap smtpPrimary? = parseCommaList recipients
    ∧ (send_professional_email env mainIdea recipients tone cc bcc
          attachments recipientNames).1
        = formatReport (parseCommaList recipients)
            (padNames (parseCommaList recipientNames)
              (parseCommaList recipients).length)
            (parseOptCommaList cc) (parseOptCommaList bcc)
            (orchResults env mainIdea recipients tone cc bcc attachments
              recipientNames)
            (orchContents env mainIdea recipients tone cc bcc attachments
              recipientNames)
    ∧ (orchResults env mainIdea recipients tone cc bcc attachments
          recipientNames).length = (parseCommaList recipients).length
    ∧ successCount (orchResults env mainIdea recipients tone cc bcc
          attachments recipientNames)
        = ((parseCommaList recipients).map
            (fun r => (env.smtpSessionError r).isNone)).count true
    ∧ failedCount (orchResults env mainIdea recipients tone cc bcc
          attachments recipientNames)
        = ((parseCommaList recipients).map
            (fun r => (env.smtpSessionError r).isNone)).count false
    ∧ successCount (orchResults env mainIdea recipients tone cc bcc
          attachments recipientNames)
        + failedCount (orchResults env mainIdea recipients tone cc bcc
            attachments recipientNames)
        = (parseCommaList recipients).length
    ∧ (∀ r ∈ parseCommaList recipients,
        MentionsStr (send_professional_email env mainIdea recipients tone cc
          bcc attachments recipientNames).1 r) := by
  have hlen1 : (parseCommaList recipients).length ≤
      (padNames (parseCommaList recipientNames)
        (parseCommaList recipients).length).length :=
    padNames_length _ _
  have hreslen : (orchResults env mainIdea recipients tone cc bcc attachments
      recipientNames).length = (parseCommaList recipients).length := by
    rw [orchResults, List.length_map, processRecipients_length,
      List.length_zip]
    omega
  have hflags : (orchResults env mainIdea recipients tone cc bcc attachments
        recipientNames).map SendResult.isSuccess
      = (parseCommaList recipients).map
          (fun r => (env.smtpSessionError r).isNone) := by
    rw [orchResults, processRecipients_success_flags]
    have hm : (((parseCommaList recipients).zip
          (padNames (parseCommaList recipientNames)
            (parseCommaList recipients).length)).map Prod.fst).map
            (fun r => (env.smtpSessionError r).isNone)
        = ((parseCommaList recipients).zip
            (padNames (parseCommaList recipientNames)
              (parseCommaList recipients).length)).map
            (fun p => (env.smtpSessionError p.1).isNone) := by
      rw [List.map_map]
      rfl
    rw [← hm, List.map_fst_zip _ _ hlen1]
  have hsucc : successCount (orchResults env mainIdea recipients tone cc bcc
        attachments recipientNames)
      = ((parseCommaList recipients).map
          (fun r => (env.smtpSessionError r).isNone)).count true := by
    rw [successCount, length_filter_eq_count_true, hflags]
  have hcounts := count_true_add_count_false
    ((parseCommaList recipients).map (fun r => (env.smtpSessionError r).isNone))
  rw [List.length_map] at hcounts
  have hfail : failedCount (orchResults env mainIdea recipients tone cc bcc
        attachments recipientNames)
      = ((parseCommaList recipients).map
          (fun r => (env.smtpSessionError r).isNone)).count false := by
    rw [failedCount, hsucc, hreslen]
    omega
  rw [spe_unfold env mainIdea recipients tone cc bcc attachments
    recipientNames hr hi hc]
  refine ⟨?_, rfl, hreslen, hsucc, hfail, by omega, ?_⟩
  · rw [processRecipients_primaries]
    exact List.map_fst_zip _ _ hlen1
  · intro r hrmem
    exact formatReport_mentions _ _ _ _ _ _ r hrmem hreslen

set_option maxRecDepth 1000000 in
/-- C4 witness: recipients a@x.com (session succeeds) and b@x.com
(session raises): both get exactly one attempt in input order, the
actual result list counts one success and one failure, and the returned
report displays "(1 sent, 1 failed)" with a status line for each of the
two recipients. -/
theorem c4_witness :
    parseCommaList "a@x.com, b@x.com" ≠ []
    ∧ ((send_professional_email envW "hi" "a@x.com, b@x.com" "professional"
          "" "" "" "").2).filterMap smtpPrimary? = ["a@x.com", "b@x.com"]
    ∧ successCount (orchResults envW "hi" "a@x.com, b@x.com" "professional"
        "" "" "" "") = 1
    ∧ failedCount (orchResults envW "hi" "a@x.com, b@x.com" "professional"
        "" "" "" "") = 1
    ∧ (pySplit (send_professional_email envW "hi" "a@x.com, b@x.com"
        "professional" "" "" "" "").1 "(1 sent, 1 failed)").length = 2
    ∧ 2 ≤ (pySplit (send_professional_email envW "hi" "a@x.com, b@x.com"
        "professional" "" "" "" "").1 "✓ a@x.com: ").length
    ∧ 2 ≤ (pySplit (send_professional_email envW "hi" "a@x.com, b@x.com"
        "professional" "" "" "" "").1 "✗ b@x.com: ").length := by
  have h := c4_failure_does_not_stop_batch envW "hi" "a@x.com, b@x.com"
    "professional" "" "" "" "" (by decide) (by decide) (by decide)
  refine ⟨by decide, h.1.trans (by decide),
    (h.2.2.2.1).trans (by decide), (h.2.2.2.2.1).trans (by decide),
    by decide, by decide, by decide⟩

/-- C5: an attachment path that is not a file at send time is recorded in
the missing-files list, excluded from the message parts, and the delivery
to that recipient is still attempted (the SMTP event happens regardless);
on a successful session the returned outcome carries the path in its
missing list. -/
theorem c5_missing_file_never_aborts (env : Env)
    (toEmail subject body : String) (cc bcc atts : Option (List String))
    (p : String) (hp : p ∈ optList atts) (hex : env.fileExists p = false) :
    p ∈ (computeAttachments env (optList atts)).2
    ∧ (∀ part ∈ (computeAttachments env (optList atts)).1, part.path ≠ p)
    ∧ (send_email env toEmail subject body cc bcc atts).2 =
        [Event.smtpSend toEmail (envelopeRecipients toEmail cc bcc)
          (buildHeaders env toEmail subject cc)]
    ∧ ((send_email env toEmail subject body cc bcc atts).1.isSuccess = true →
        p ∈ (send_email env toEmail subject body cc bcc atts).1.missingOf) := by
  refine ⟨computeAttachments_missing_mem env _ p hp hex, ?_,
    send_email_events env toEmail subject body cc bcc atts, ?_⟩
  · intro part hpart heq
    have hex2 := computeAttachments_parts_exist env _ part hpart
    rw [heq, hex] at hex2
    cases hex2
  · intro hs
    rw [send_email_missing env toEmail subject body cc bcc atts hs]
    exact computeAttachments_missing_mem env _ p hp hex

/-- C5 witness: the absent path /ws/missing.pdf is recorded as missing
while the send to to@x.com still happens and succeeds. -/
theorem c5_witness :
    ("/ws/missing.pdf" ∈ optList (some ["/ws/missing.pdf"])
      ∧ envW.fileExists "/ws/missing.pdf" = false)
    ∧ "/ws/missing.pdf" ∈
        (computeAttachments envW (optList (some ["/ws/missing.pdf"]))).2
    ∧ ((send_email envW "to@x.com" "Subj" "Body" none none
          (some ["/ws/missing.pdf"])).1.isSuccess = true →
        "/ws/missing.pdf" ∈ (send_email envW "to@x.com" "Subj" "Body" none
          none (some ["/ws/missing.pdf"])).1.missingOf) := by
  have h := c5_missing_file_never_aborts envW "to@x.com" "Subj" "Body" none
    none (some ["/ws/missing.pdf"]) "/ws/missing.pdf" (by decide) (by decide)
  exact ⟨⟨by decide, by decide⟩, h.1, h.2.2.2⟩

/-- C6: when the key is configured, the endpoint answers, and the
code-fence-stripped trimmed reply parses as an object containing the four
required keys, the enhancer returns the parsed dictionary verbatim. -/
theorem c6_wellformed_roundtrip (env : Env)
    (mainIdea tone recipientName raw : String)
    (kvs : List (String × String))
    (hkey : strTruthy env.geminiApiKey = true)
    (hgen : env.generateContent (buildPrompt mainIdea tone recipientName)
      = some raw)
    (hparse : env.jsonParse (stripCodeFences (pyStrip raw)) = some kvs)
    (hkeys : requiredKeys.all (fun k => (kvs.lookup k).isSome) = true) :
    enhance_email_with_ai env mainIdea tone recipientName = kvs
    ∧ ∀ k ∈ requiredKeys,
        (enhance_email_with_ai env mainIdea tone recipientName).lookup k
          = kvs.lookup k := by
  have htry : tryEnhance env mainIdea tone recipientName = some kvs := by
    unfold tryEnhance
    simp [hkey, hgen, hparse, hkeys]
  refine ⟨by simp [enhance_email_with_ai, htry], ?_⟩
  intro k hk
  simp [enhance_email_with_ai, htry]

/-- C6 witness: a code-fenced response round-trips verbatim. -/
theorem c6_witness :
    strTruthy envR.geminiApiKey = true
    ∧ envR.jsonParse (stripCodeFences (pyStrip "```json\nX\n```"))
        = some [("subject", "S1"), ("greeting", "G1"), ("body", "B1"),
            ("closing", "C1")]
    ∧ enhance_email_with_ai envR "idea" "professional" "Bob"
        = [("subject", "S1"), ("greeting", "G1"), ("body", "B1"),
            ("closing", "C1")] := by
  refine ⟨by decide, by decide, ?_⟩
  exact (c6_wellformed_roundtrip envR "idea" "professional" "Bob"
    "```json\nX\n```" _ (by decide) rfl (by decide) (by decide)).1

theorem zip_getD (l₁ l₂ : List String) (i : Nat) (h1 : i < l₁.length)
    (h2 : i < l₂.length) :
    (l₁.zip l₂).getD i ("", "") = (l₁.getD i "", l₂.getD i "") := by
  induction l₁ generalizing l₂ i with
  | nil => simp at h1
  | cons a l ih =>
    cases l₂ with
    | nil => simp at h2
    | cons b t =>
      cases i with
      | zero => simp
      | succ j =>
        simpa using ih t j (by simpa using h1) (by simpa using h2)

theorem padNames_getD (names : List String) (n i : Nat) :
    (padNames names n).getD i ""
      = if i < names.length then names.getD i "" else "" := by
  rw [padNames_eq]
  by_cases h : i < names.length
  · rw [if_pos h]
    rw [List.getD_eq_getElem?_getD, List.getD_eq_getElem?_getD,
      List.getElem?_append_left h]
  · rw [if_neg h]
    rw [List.getD_eq_getElem?_getD,
      List.getElem?_append_right (Nat.le_of_not_lt h)]
    rcases Nat.lt_or_ge (i - names.length) (n - names.length) with hin | hin
    · simp [List.getElem?_replicate, hin]
    · simp [List.getElem?_replicate, Nat.not_lt.mpr hin]

/-- C7: the recipient-names list, when no longer than the recipient
list, is padded with empty strings up to the recipient count, names are
paired with recipients positionally (index i of the zipped pairs is the
i-th recipient with the i-th name, or "" beyond the given names), and
once validation passes the orchestrator's event trace is exactly the
per-pair traces of those zipped pairs in order. -/
theorem c7_names_padded_positionally (env : Env)
    (mainIdea recipients tone cc bcc attachments recipientNames : String)
    (hr : parseCommaList recipients ≠ []) (hi : mainIdea ≠ "")
    (hc : credsConfigured env = true)
    (hlen : (parseCommaList recipientNames).length
      ≤ (parseCommaList recipients).length) :
    padNames (parseCommaList recipientNames) (parseCommaList recipients).length
      = parseCommaList recipientNames
        ++ List.replicate ((parseCommaList recipients).length
            - (parseCommaList recipientNames).length) ""
    ∧ (∀ i, i < (parseCommaList recipients).length →
        ((parseCommaList recipients).zip
            (padNames (parseCommaList recipientNames)
              (parseCommaList recipients).length)).getD i ("", "")
          = ((parseCommaList recipients).getD i "",
             if i < (parseCommaList recipientNames).length then
               (parseCommaList recipientNames).getD i ""
             else ""))
    ∧ (send_professional_email env mainIdea recipients tone cc bcc
          attachments recipientNames).2
        = ((parseCommaList recipients).zip
            (padNames (parseCommaList recipientNames)
              (parseCommaList recipients).length)).flatMap
            (fun p => (processOne env mainIdea tone (parseOptCommaList cc)
              (parseOptCommaList bcc) (parseAttachmentList env attachments)
              p).2) := by
  refine ⟨padNames_eq _ _, ?_, ?_⟩
  · intro i hilt
    rw [zip_getD _ _ i hilt (Nat.lt_of_lt_of_le hilt (padNames_length _ _)),
      padNames_getD]
  · rw [spe_unfold env mainIdea recipients tone cc bcc attachments
      recipientNames hr hi hc]
    exact processRecipients_events env mainIdea tone _ _ _ _

/-- C7 witness: recipients a@x.com and b@x.com with the single name
Alice — Alice pairs with a@x.com and b@x.com gets the empty name. -/
theorem c7_witness :
    (parseCommaList "Alice").length ≤ (parseCommaList "a@x.com, b@x.com").length
    ∧ padNames (parseCommaList "Alice")
        (parseCommaList "a@x.com, b@x.com").length = ["Alice", ""]
    ∧ ((parseCommaList "a@x.com, b@x.com").zip
        (padNames (parseCommaList "Alice")
          (parseCommaList "a@x.com, b@x.com").length)).getD 0 ("", "")
        = ("a@x.com", "Alice")
    ∧ ((parseCommaList "a@x.com, b@x.com").zip
        (padNames (parseCommaList "Alice")
          (parseCommaList "a@x.com, b@x.com").length)).getD 1 ("", "")
        = ("b@x.com", "") := by
  have h := c7_names_padded_positionally envW "hi" "a@x.com, b@x.com"
    "professional" "" "" "" "Alice" (by decide) (by decide) (by decide)
    (by decide)
  refine ⟨by decide, h.1.trans (by decide), ?_, ?_⟩
  · exact (h.2.1 0 (by decide)).trans (by decide)
  · exact (h.2.1 1 (by decide)).trans (by decide)

/-- C8 counterexample: the relative attachment path "report.pdf" is
resolved to "/ws/report.pdf" — against the script directory — and not
against the staging root "/ws/temp_attachments" where save_temp_file
would have stored an upload of that name. -/
theorem c8_counterexample :
    resolveAttachmentPath envW "report.pdf"
        ≠ pjoin (stagingDir envW) "report.pdf"
    ∧ resolveAttachmentPath envW "report.pdf" = "/ws/report.pdf"
    ∧ save_temp_file_path envW "report.pdf"
        = "/ws/temp_attachments/report.pdf" := by
  exact ⟨by decide, by decide, by decide⟩

/-- C8 (amended): every relative attachment path passed to
send_professional_email is resolved, before the file-existence check,
against the script's own directory — the parent of the staging directory
— while save_temp_file stores uploads one level deeper, under
temp_attachments inside that same directory.  (The claim as stated,
resolution against the staging root itself, is refuted by
c8_counterexample.) -/
theorem c8_relative_resolved_against_script_dir (env : Env)
    (path filename : String) (h : env.isAbs path = false) :
    resolveAttachmentPath env path = pjoin env.scriptDir path
    ∧ stagingDir env = pjoin env.scriptDir "temp_attachments"
    ∧ save_temp_file_path env filename
        = pjoin (pjoin env.scriptDir "temp_attachments") filename := by
  refine ⟨?_, rfl, rfl⟩
  simp [resolveAttachmentPath, h]

/-- C8 witness: the amended resolution rule at a concrete relative
path. -/
theorem c8_witness :
    envW.isAbs "report.pdf" = false
    ∧ resolveAttachmentPath envW "report.pdf"
        = pjoin envW.scriptDir "report.pdf" := by
  exact ⟨by decide,
    (c8_relative_resolved_against_script_dir envW "report.pdf" "x"
      (by decide)).1⟩

set_option maxRecDepth 100000 in
/-- C9: contrary to the claim (and to the spec's stated intent, which
calls the duplication a defect), the report emits each per-recipient
delivery status line twice: at a concrete one-recipient input the
success marker line "✓ r@x.com: " occurs twice in the returned
report. -/
theorem c9_status_line_emitted_twice :
    (pySplit (send_professional_email envW "hi" "r@x.com" "professional"
        "" "" "" "").1 "✓ r@x.com: ").length - 1 = 2 := by
  decide

/-- C10: once the three validations pass, the report always begins with
the header line "✓ Email Sent Successfully", whatever the delivery
outcomes — including when every delivery failed. -/
theorem c10_header_unconditional (env : Env)
    (mainIdea recipients tone cc bcc attachments recipientNames : String)
    (hr : parseCommaList recipients ≠ []) (hi : mainIdea ≠ "")
    (hc : credsConfigured env = true) :
    ∃ rest, (send_professional_email env mainIdea recipients tone cc bcc
        attachments recipientNames).1 = reportHeader ++ rest := by
  rw [spe_unfold env mainIdea recipients tone cc bcc attachments
    recipientNames hr hi hc]
  exact ⟨_, rfl⟩

set_option maxRecDepth 100000 in
/-- C10 witness: with every SMTP session failing, the sole delivery
fails (the report counts 0 sent, 1 failed) yet the report still starts
with the success header. -/
theorem c10_witness :
    parseCommaList "a@x.com" ≠ []
    ∧ (pySplit (send_professional_email envF "hi" "a@x.com" "professional"
        "" "" "" "").1 "(0 sent, 1 failed)").length = 2
    ∧ ∃ rest, (send_professional_email envF "hi" "a@x.com" "professional"
        "" "" "" "").1 = reportHeader ++ rest := by
  exact ⟨by decide, by decide,
    c10_header_unconditional envF "hi" "a@x.com" "professional" "" "" "" ""
      (by decide) (by decide) (by decide)⟩
